import Mathlib

/-!
Verification of the LiDAR capture pipeline (backend services) against its
natural-language specification.

The development shallowly embeds the Python sources:

* `src/backend/services/raw_data_processor.py` — the LRAW binary codec
  (`parse_lraw`, `_parse_mesh_anchor`, `_parse_texture_frame`,
  `_parse_depth_frame`) and the mesh reconstructor (`_reconstruct_mesh`).
* `src/backend/services/depth_fusion.py` — `DepthFusionService.fuse`,
  `_calibrate_to_metric`, `_compute_confidence`, and
  `PointCloudExtractor._voxel_downsample`.
* `src/backend/services/depth_anything.py` —
  `DepthAnythingService.predict_metric_depth`.

Modelling conventions:

* Byte streams are `List ℕ` with each element a byte value; Python's
  `f.read(n)` returns at most `n` bytes (fewer at end of file) and never
  fails, which `readBytes` mirrors exactly.
* The codec never interprets IEEE-754 payloads numerically, so a 32-bit
  float is represented by its little-endian 32-bit pattern (a natural
  number), and a 64-bit timestamp by its 64-bit pattern.
* Arithmetic in the fusion/calibration code is modelled over ℚ (exact
  rationals standing for the source's float64 values); `1e-6` is `1/1000000`.
* Calls into external libraries that the repository does not implement
  (OpenCV `resize`/`Sobel`, LAPACK `np.linalg.lstsq`, `math.sqrt`) are
  passed in as function parameters, and theorems quantify over them.
* Python exceptions are modelled with `Except`; a `try/except` block is a
  `match` on the `Except` value.
-/

/-- Clip a rational to the interval `[lo, hi]`; this is `np.clip(x, lo, hi)`,
which numpy documents as `minimum(hi, maximum(x, lo))`. -/
def clipQ (x lo hi : ℚ) : ℚ := min hi (max x lo)

/-- Count of `true` entries of a boolean list; this is `mask.sum()` on a
numpy boolean array. -/
def trueCount (mask : List Bool) : ℕ := (mask.filter id).length

/-- Boolean-mask selection `arr[mask]` on numpy arrays: keep the entries of
`xs` at positions where `mask` holds, in order. -/
def maskSelect (xs : List ℚ) (mask : List Bool) : List ℚ :=
  ((xs.zip mask).filter (fun p => p.2)).map (fun p => p.1)

/-- Mean of a list of rationals, `np.mean`; the empty case (numpy's NaN
warning) is Lean's `0/0 = 0`. -/
def meanQ (xs : List ℚ) : ℚ := xs.sum / xs.length

/-- Maximum of a list of rationals, `arr.max()` on a nonempty numpy array;
on the empty list it returns the accumulator `0` (the source raises there,
and the embedding of `fuse` throws before calling this on `[]`). -/
def listMaxQ (xs : List ℚ) : ℚ :=
  match xs with
  | [] => 0
  | y :: ys => ys.foldl max y

/-! ## LRAW binary codec (`raw_data_processor.py`) -/

/-- Read from a byte stream as Python's `f.read(n)`: return up to `n` bytes
and the rest of the stream.  A short read at end of file is NOT an error. -/
def readBytes (n : ℕ) (s : List ℕ) : List ℕ × List ℕ := (s.take n, s.drop n)

/-- Little-endian interpretation of a byte list as a natural number, as
`struct.unpack` does for fixed-width unsigned fields. -/
def leNat (bs : List ℕ) : ℕ := bs.foldr (fun b acc => b + 256 * acc) 0

/-- Errors the Python parser can actually raise.  `invalidMagic` is the
explicit `ValueError` for a magic mismatch; `structError` is `struct.error`
when `struct.unpack` receives a buffer shorter than its format;
`valueError` is numpy's `ValueError` from `np.frombuffer` (length not a
multiple of the item size) or `ndarray.reshape` (size mismatch).  The
source defines no `TruncatedStream` and no `ImplausibleCount` error. -/
inductive ParseErr where
  | invalidMagic : ParseErr
  | structError : ParseErr
  | valueError : ParseErr
deriving DecidableEq

/-- Group a byte list into little-endian 32-bit words, as
`np.frombuffer(data, dtype=np.float32)` / `np.uint32` views the buffer
(the numeric value of each word is its bit pattern). -/
def toWords : List ℕ → List ℕ
  | b0 :: b1 :: b2 :: b3 :: rest => leNat [b0, b1, b2, b3] :: toWords rest
  | _ => []

/-- Check of `np.frombuffer` for 4-byte dtypes: the buffer length must be a
multiple of the element size, else `ValueError`. -/
def frombuffer32 (bs : List ℕ) : Except ParseErr (List ℕ) :=
  if bs.length % 4 = 0 then Except.ok (toWords bs) else Except.error ParseErr.valueError

/-- Model of `arr.reshape(rows, cols)`: requires the exact element count
(the parsed grid is kept flat, only the size invariant matters here). -/
def reshapeExact (rows cols : ℕ) (ws : List ℕ) : Except ParseErr (List ℕ) :=
  if ws.length = rows * cols then Except.ok ws else Except.error ParseErr.valueError

/-- Group 32-bit words into triples as `arr.reshape(-1, 3)`: the element
count must be a multiple of 3, else `ValueError`. -/
def toTriples : List ℕ → List (ℕ × ℕ × ℕ)
  | a :: b :: c :: rest => (a, b, c) :: toTriples rest
  | _ => []

/-- Reshape to `(-1, 3)` with numpy's divisibility check. -/
def reshapeTriples (ws : List ℕ) : Except ParseErr (List (ℕ × ℕ × ℕ)) :=
  if ws.length % 3 = 0 then Except.ok (toTriples ws) else Except.error ParseErr.valueError

/-- Model of `struct.unpack("<I", f.read(4))`: `struct.error` unless exactly
4 bytes were obtained. -/
def unpackU32 (s : List ℕ) : Except ParseErr (ℕ × List ℕ) :=
  let r := readBytes 4 s
  if r.1.length = 4 then Except.ok (leNat r.1, r.2) else Except.error ParseErr.structError

/-- Model of `struct.unpack("<B", f.read(1))`. -/
def unpackU8 (s : List ℕ) : Except ParseErr (ℕ × List ℕ) :=
  let r := readBytes 1 s
  if r.1.length = 1 then Except.ok (leNat r.1, r.2) else Except.error ParseErr.structError

/-- Model of `struct.unpack("<d", f.read(8))`; the timestamp is kept as its
64-bit pattern. -/
def unpackU64 (s : List ℕ) : Except ParseErr (ℕ × List ℕ) :=
  let r := readBytes 8 s
  if r.1.length = 8 then Except.ok (leNat r.1, r.2) else Except.error ParseErr.structError

/-- Model of `struct.unpack("<H", buf)` on an already-sliced buffer
(`header[4:6]` etc.). -/
def unpackU16Slice (bs : List ℕ) (i : ℕ) : Except ParseErr ℕ :=
  let sl := (bs.drop i).take 2
  if sl.length = 2 then Except.ok (leNat sl) else Except.error ParseErr.structError

/-- Model of `struct.unpack("<I", buf)` on an already-sliced buffer. -/
def unpackU32Slice (bs : List ℕ) (i : ℕ) : Except ParseErr ℕ :=
  let sl := (bs.drop i).take 4
  if sl.length = 4 then Except.ok (leNat sl) else Except.error ParseErr.structError

/-- Parsed mesh anchor, `MeshAnchorData` in the source.  Floats are 32-bit
patterns; `transform` is the flat row-major 4×4 word list. -/
structure MeshAnchorData where
  uuid : List ℕ
  transform : List ℕ
  vertices : List (ℕ × ℕ × ℕ)
  normals : List (ℕ × ℕ × ℕ)
  faces : List (ℕ × ℕ × ℕ)
  classifications : Option (List ℕ)
deriving DecidableEq

/-- Parsed texture frame, `TextureFrameData` in the source. -/
structure TextureFrameData where
  uuid : List ℕ
  timestamp : ℕ
  transform : List ℕ
  intrinsics : List ℕ
  width : ℕ
  height : ℕ
  image_data : List ℕ
deriving DecidableEq

/-- Parsed depth frame, `DepthFrameData` in the source.  `depth_values` is
the flat row-major grid of 32-bit patterns. -/
structure DepthFrameData where
  uuid : List ℕ
  timestamp : ℕ
  transform : List ℕ
  intrinsics : List ℕ
  width : ℕ
  height : ℕ
  depth_values : List ℕ
  confidence_values : Option (List ℕ)
deriving DecidableEq

/-- Parsed LRAW file, `LRAWData` in the source. -/
structure LRAWData where
  version : ℕ
  flags : ℕ
  mesh_anchors : List MeshAnchorData
  texture_frames : List TextureFrameData
  depth_frames : List DepthFrameData
  total_vertices : ℕ
  total_faces : ℕ
deriving DecidableEq

/-- Embedding of `RawDataProcessor._parse_mesh_anchor`.  Reads are
performed exactly as in the source: `f.read` never checks lengths, the
only failures come from `struct.unpack`, `np.frombuffer` and `reshape`. -/
def parse_mesh_anchor (hasClassifications : Bool) (s : List ℕ) :
    Except ParseErr (MeshAnchorData × List ℕ) := do
  let r0 := readBytes 16 s
  let uuid := r0.1
  let r1 := readBytes 64 r0.2
  let tfW ← frombuffer32 r1.1
  let transform ← reshapeExact 4 4 tfW
  let (vertex_count, s2) ← unpackU32 r1.2
  let (face_count, s3) ← unpackU32 s2
  let (has_class, s4) ← unpackU8 s3
  let rv := readBytes (vertex_count * 12) s4
  let vW ← frombuffer32 rv.1
  let vertices ← reshapeTriples vW
  let rn := readBytes (vertex_count * 12) rv.2
  let nW ← frombuffer32 rn.1
  let normals ← reshapeTriples nW
  let rf := readBytes (face_count * 12) rn.2
  let fW ← frombuffer32 rf.1
  let faces ← reshapeTriples fW
  let rc :=
    if has_class ≠ 0 ∧ hasClassifications then
      let rcl := readBytes vertex_count rf.2
      (some rcl.1, rcl.2)
    else (none, rf.2)
  Except.ok (⟨uuid, transform, vertices, normals, faces, rc.1⟩, rc.2)

/-- Embedding of `RawDataProcessor._parse_texture_frame`.  The image
payload read is unchecked: a short payload is silently kept. -/
def parse_texture_frame (s : List ℕ) : Except ParseErr (TextureFrameData × List ℕ) := do
  let r0 := readBytes 16 s
  let uuid := r0.1
  let (timestamp, s1) ← unpackU64 r0.2
  let r1 := readBytes 64 s1
  let tfW ← frombuffer32 r1.1
  let transform ← reshapeExact 4 4 tfW
  let r2 := readBytes 36 r1.2
  let inW ← frombuffer32 r2.1
  let intrinsics ← reshapeExact 3 3 inW
  let (width, s3) ← unpackU32 r2.2
  let (height, s4) ← unpackU32 s3
  let (image_length, s5) ← unpackU32 s4
  let r3 := readBytes image_length s5
  Except.ok (⟨uuid, timestamp, transform, intrinsics, width, height, r3.1⟩, r3.2)

/-- Embedding of `RawDataProcessor._parse_depth_frame`.  The depth grid
must reshape to exactly `(height, width)`; the trailing confidence payload,
when the flag is set, is kept only if exactly `width*height` bytes remain —
a short confidence read leaves `confidence_values = None` silently. -/
def parse_depth_frame (hasConfidence : Bool) (s : List ℕ) :
    Except ParseErr (DepthFrameData × List ℕ) := do
  let r0 := readBytes 16 s
  let uuid := r0.1
  let (timestamp, s1) ← unpackU64 r0.2
  let r1 := readBytes 64 s1
  let tfW ← frombuffer32 r1.1
  let transform ← reshapeExact 4 4 tfW
  let r2 := readBytes 36 r1.2
  let inW ← frombuffer32 r2.1
  let intrinsics ← reshapeExact 3 3 inW
  let (width, s3) ← unpackU32 r2.2
  let (height, s4) ← unpackU32 s3
  let rd := readBytes (width * height * 4) s4
  let dW ← frombuffer32 rd.1
  let depth_values ← reshapeExact height width dW
  let rc :=
    if hasConfidence then
      let conf := readBytes (width * height) rd.2
      if conf.1.length = width * height then (some conf.1, conf.2) else (none, conf.2)
    else (none, rd.2)
  Except.ok (⟨uuid, timestamp, transform, intrinsics, width, height, depth_values, rc.1⟩, rc.2)

/-- Sequential anchor loop of `parse_lraw` (`for i in range(mesh_count)`). -/
def parse_anchors : ℕ → Bool → List ℕ → Except ParseErr (List MeshAnchorData × List ℕ)
  | 0, _, s => Except.ok ([], s)
  | n + 1, hc, s => do
    let (a, s1) ← parse_mesh_anchor hc s
    let (rest, s2) ← parse_anchors n hc s1
    Except.ok (a :: rest, s2)

/-- Sequential texture-frame loop of `parse_lraw`. -/
def parse_textures : ℕ → List ℕ → Except ParseErr (List TextureFrameData × List ℕ)
  | 0, s => Except.ok ([], s)
  | n + 1, s => do
    let (t, s1) ← parse_texture_frame s
    let (rest, s2) ← parse_textures n s1
    Except.ok (t :: rest, s2)

/-- Sequential depth-frame loop of `parse_lraw`. -/
def parse_depths : ℕ → Bool → List ℕ → Except ParseErr (List DepthFrameData × List ℕ)
  | 0, _, s => Except.ok ([], s)
  | n + 1, hc, s => do
    let (d, s1) ← parse_depth_frame hc s
    let (rest, s2) ← parse_depths n hc s1
    Except.ok (d :: rest, s2)

/-- The ASCII bytes of the magic literal `b"LRAW"`. -/
def lrawMagic : List ℕ := [76, 82, 65, 87]

/-- Embedding of `RawDataProcessor.parse_lraw`: read the 32-byte header,
check the magic, unpack the fixed header fields from header slices, then
parse exactly the declared numbers of records strictly sequentially. -/
def parse_lraw (s : List ℕ) : Except ParseErr LRAWData := do
  let r0 := readBytes 32 s
  let header := r0.1
  if header.take 4 ≠ lrawMagic then Except.error ParseErr.invalidMagic else do
  let version ← unpackU16Slice header 4
  let flags ← unpackU16Slice header 6
  let mesh_count ← unpackU32Slice header 8
  let texture_count ← unpackU32Slice header 12
  let depth_count ← unpackU32Slice header 16
  let has_classifications := flags.testBit 0
  let has_confidence := flags.testBit 1
  let (mesh_anchors, s1) ← parse_anchors mesh_count has_classifications r0.2
  let (texture_frames, s2) ← parse_textures texture_count s1
  let (depth_frames, _) ← parse_depths depth_count has_confidence s2
  Except.ok
    ⟨version, flags, mesh_anchors, texture_frames, depth_frames,
      (mesh_anchors.map (fun a => a.vertices.length)).sum,
      (mesh_anchors.map (fun a => a.faces.length)).sum⟩

/-! ## Mesh reconstruction (`RawDataProcessor._reconstruct_mesh`) -/

/-- Geometric 3-vector over ℚ (standing for the source's float32 triples in
the reconstruction arithmetic). -/
structure Vec3 where
  x : ℚ
  y : ℚ
  z : ℚ
deriving DecidableEq

/-- Row-major 4×4 transform, 16 rational entries `m<row><col>`. -/
structure Mat4 where
  m00 : ℚ
  m01 : ℚ
  m02 : ℚ
  m03 : ℚ
  m10 : ℚ
  m11 : ℚ
  m12 : ℚ
  m13 : ℚ
  m20 : ℚ
  m21 : ℚ
  m22 : ℚ
  m23 : ℚ
  m30 : ℚ
  m31 : ℚ
  m32 : ℚ
  m33 : ℚ
deriving DecidableEq

/-- Application of the 4×4 transform to a vertex in homogeneous coordinates
with `w = 1`, keeping the first three components — the source's
`(transform @ homogeneous.T).T[:, :3]`. -/
def applyTransform (t : Mat4) (v : Vec3) : Vec3 :=
  ⟨t.m00 * v.x + t.m01 * v.y + t.m02 * v.z + t.m03,
   t.m10 * v.x + t.m11 * v.y + t.m12 * v.z + t.m13,
   t.m20 * v.x + t.m21 * v.y + t.m22 * v.z + t.m23⟩

/-- Application of the upper-left 3×3 block (`transform[:3, :3]`) to a
normal — rotation only, no translation. -/
def applyRotation (t : Mat4) (n : Vec3) : Vec3 :=
  ⟨t.m00 * n.x + t.m01 * n.y + t.m02 * n.z,
   t.m10 * n.x + t.m11 * n.y + t.m12 * n.z,
   t.m20 * n.x + t.m21 * n.y + t.m22 * n.z⟩

/-- Mesh anchor as consumed by the reconstructor: decoded transform,
vertex positions, normals and face index triples. -/
structure AnchorGeo where
  transform : Mat4
  vertices : List Vec3
  normals : List Vec3
  faces : List (ℕ × ℕ × ℕ)
deriving DecidableEq

/-- Merged world-space mesh produced by `_reconstruct_mesh`. -/
structure MergedMesh where
  vertices : List Vec3
  normals : List Vec3
  faces : List (ℕ × ℕ × ℕ)
deriving DecidableEq

/-- Loop body of `_reconstruct_mesh`: walk the anchors keeping the running
`vertex_offset`, transforming vertices and normals and offsetting faces. -/
def reconstructCore : List AnchorGeo → ℕ → MergedMesh
  | [], _ => ⟨[], [], []⟩
  | a :: rest, off =>
    let tv := a.vertices.map (applyTransform a.transform)
    let tn := a.normals.map (applyRotation a.transform)
    let fs := a.faces.map (fun f => (f.1 + off, f.2.1 + off, f.2.2 + off))
    let m := reconstructCore rest (off + a.vertices.length)
    ⟨tv ++ m.vertices, tn ++ m.normals, fs ++ m.faces⟩

/-- Embedding of `RawDataProcessor._reconstruct_mesh` (its pure
mesh-merging part; the PLY file write is I/O).  On an empty anchor list the
source reaches `np.vstack([])`, which raises `ValueError` — modelled as
`none`. -/
def reconstruct_mesh (anchors : List AnchorGeo) : Option MergedMesh :=
  if anchors.isEmpty then none else some (reconstructCore anchors 0)

/-- Vertex offsets of each anchor: the total vertex count of all preceding
anchors (`List.scanl`, so entry `j` is the sum over `i < j`). -/
def anchorOffsets (anchors : List AnchorGeo) : List ℕ :=
  anchors.scanl (fun acc a => acc + a.vertices.length) 0

/-! ## Depth fusion (`depth_fusion.py`) -/

/-- Configuration fields of `DepthFusionService.__init__`. -/
structure FusionConfig where
  weight_lidar : ℚ
  weight_ai : ℚ
  min_depth : ℚ
  max_depth : ℚ
  detect_edges : Bool
deriving DecidableEq

/-- Default construction `DepthFusionService()`. -/
def defaultFusionConfig : FusionConfig :=
  ⟨4/5, 1/5, 1/10, 5, true⟩

/-- Per-pixel LiDAR validity test of `fuse` step 2:
`(lidar > min_depth) & (lidar < max_depth) & (conf >= 1)` (strict depth
bounds). -/
def validPixel (cfg : FusionConfig) (lidar conf : ℚ) : Bool :=
  decide (cfg.min_depth < lidar) && decide (lidar < cfg.max_depth) && decide (1 ≤ conf)

/-- Raw per-pixel LiDAR blend weight of `fuse` step 4:
`np.where(valid_mask, self.weight_lidar, 0.0)`. -/
def lidarWeightRaw (cfg : FusionConfig) (valid : Bool) : ℚ :=
  if valid then cfg.weight_lidar else 0

/-- Raw per-pixel AI blend weight of `fuse` step 4:
`np.where(valid_mask, self.weight_ai, 1.0)`. -/
def aiWeightRaw (cfg : FusionConfig) (valid : Bool) : ℚ :=
  if valid then cfg.weight_ai else 1

/-- Per-pixel total weight `lidar_weight + ai_weight + 1e-6`. -/
def totalWeight (cfg : FusionConfig) (valid : Bool) : ℚ :=
  lidarWeightRaw cfg valid + aiWeightRaw cfg valid + 1/1000000

/-- Normalized per-pixel LiDAR weight `lidar_weight / total_weight`. -/
def lidarWeightNorm (cfg : FusionConfig) (valid : Bool) : ℚ :=
  lidarWeightRaw cfg valid / totalWeight cfg valid

/-- Normalized per-pixel AI weight `ai_weight / total_weight`. -/
def aiWeightNorm (cfg : FusionConfig) (valid : Bool) : ℚ :=
  aiWeightRaw cfg valid / totalWeight cfg valid

/-- Per-pixel fused depth of `fuse` step 5: the normalized weighted sum,
clipped to `[min_depth, max_depth]`. -/
def fusedPixel (cfg : FusionConfig) (valid : Bool) (lidar ai : ℚ) : ℚ :=
  clipQ (lidarWeightNorm cfg valid * lidar + aiWeightNorm cfg valid * ai)
    cfg.min_depth cfg.max_depth

/-- Per-pixel disagreement penalty of `_compute_confidence`:
`np.clip(2 * |lidar - ai| / (lidar + 1e-6), 0, 0.5)`. -/
def disagreementPenalty (lidar ai : ℚ) : ℚ :=
  clipQ ((|lidar - ai| / (lidar + 1/1000000)) * 2) 0 (1/2)

/-- Per-pixel confidence before the final clip: base 0.9 where LiDAR is
valid else `ai_confidence * 0.7`, minus the disagreement penalty on valid
pixels when any pixel is valid (`valid_mask.sum() > 0`). -/
def confidencePixelRaw (applyPenalty : Bool) (aiConf : ℚ) (valid : Bool) (lidar ai : ℚ) : ℚ :=
  let base : ℚ := if valid then 9/10 else aiConf * (7/10)
  if applyPenalty && valid then base - disagreementPenalty lidar ai else base

/-- Embedding of `DepthFusionService._compute_confidence`: per-pixel raw
confidence followed by the final `np.clip(confidence, 0.0, 1.0)`. -/
def compute_confidence (lidar ai : List ℚ) (mask : List Bool) (aiConf : ℚ) : List ℚ :=
  let applyPenalty := decide (0 < trueCount mask)
  (List.zipWith (fun p a => confidencePixelRaw applyPenalty aiConf p.1 p.2 a)
    (mask.zip lidar) ai).map (fun c => clipQ c 0 1)

/-- Per-pixel calibrated metric AI depth of `_calibrate_to_metric`:
`np.clip(1 / (scale * relative + offset + 1e-6), min_depth, max_depth * 2)`. -/
def calibPixel (cfg : FusionConfig) (scale offset r : ℚ) : ℚ :=
  clipQ (1 / (scale * r + offset + 1/1000000)) cfg.min_depth (cfg.max_depth * 2)

/-- Embedding of `DepthFusionService._calibrate_to_metric`.  The
least-squares fit `np.linalg.lstsq` is an external LAPACK routine, passed
in as `fitFn` on the masked samples; `none` models the `except` branch
(`np.linalg.LinAlgError`), whose fallback scales the relative map by the
ratio of masked means. -/
def calibrate_to_metric (fitFn : List ℚ → List ℚ → Option (ℚ × ℚ))
    (cfg : FusionConfig) (aiRelative lidarMetric : List ℚ) (mask : List Bool) : List ℚ :=
  let lidarValid := maskSelect lidarMetric mask
  let aiValid := maskSelect aiRelative mask
  let invLidar := lidarValid.map (fun d => 1 / (d + 1/1000000))
  match fitFn aiValid invLidar with
  | some so => aiRelative.map (fun r => calibPixel cfg so.1 so.2 r)
  | none =>
    let scale := meanQ lidarValid / (meanQ aiValid + 1/1000000)
    aiRelative.map (fun r => r * scale)

/-- Statistics record of `FusionStats`; the wall-clock
`processing_time_ms` field is real time and is not modelled. -/
structure FusionStats where
  lidar_coverage : ℚ
  ai_contribution : ℚ
  edge_pixels : ℕ
deriving DecidableEq

/-- Result record of `FusionResult`. -/
structure FusionResult where
  fused_depth : List ℚ
  confidence_map : List ℚ
  edge_map : Option (List ℕ)
  lidar_resolution : ℕ × ℕ
  output_resolution : ℕ × ℕ
  stats : FusionStats
deriving DecidableEq

/-- Exceptions that the body of `fuse` can raise in the exact-arithmetic
model: `np.max` on a zero-size array (`ai_depth.max()` with an empty AI
map). -/
inductive FuseExc where
  | emptyAiReduction : FuseExc
deriving DecidableEq

/-- External collaborators of `fuse` that this repository does not
implement: OpenCV resampling (bilinear for depth, nearest for confidence),
OpenCV Sobel edge magnitudes, and the LAPACK least-squares fit. -/
structure FuseExternals where
  resizeDepth : List ℚ → ℕ × ℕ → List ℚ
  resizeNearest : List ℚ → ℕ × ℕ → List ℚ
  sobel : List ℚ → List ℕ
  fitFn : List ℚ → List ℚ → Option (ℚ × ℚ)

/-- Body of `DepthFusionService.fuse` (the `try` block): align LiDAR to
the AI resolution, build the validity mask, calibrate a relative AI map
when more than 100 pixels are valid, blend with normalized weights, clip,
compute the confidence map and the optional edge map. -/
def fuseBody (ext : FuseExternals) (cfg : FusionConfig)
    (lidarDepth : List ℚ) (lidarShape : ℕ × ℕ)
    (aiDepth : List ℚ) (aiShape : ℕ × ℕ)
    (lidarConfidence : Option (List ℚ)) (aiConfidence : ℚ) :
    Except FuseExc FusionResult := do
  let lidarUp := ext.resizeDepth lidarDepth aiShape
  let confUp :=
    match lidarConfidence with
    | some c => ext.resizeNearest c aiShape
    | none => List.replicate lidarUp.length (1 : ℚ)
  let mask := List.zipWith (fun l c => validPixel cfg l c) lidarUp confUp
  let lidarCoverage : ℚ := (trueCount mask : ℚ) / (mask.length : ℚ)
  if aiDepth.isEmpty then Except.error FuseExc.emptyAiReduction else do
  let aiIsRelative := decide (listMaxQ aiDepth ≤ 3/2)
  let aiMetric :=
    if aiIsRelative && decide (100 < trueCount mask) then
      calibrate_to_metric ext.fitFn cfg aiDepth lidarUp mask
    else aiDepth
  let fusedDepth :=
    List.zipWith (fun p a => fusedPixel cfg p.1 p.2 a) (mask.zip lidarUp) aiMetric
  let confidenceMap := compute_confidence lidarUp aiMetric mask aiConfidence
  let edge :=
    if cfg.detect_edges then
      let em := ext.sobel fusedDepth
      (some em, (em.filter (fun p => decide (128 < p))).length)
    else (none, 0)
  Except.ok
    ⟨fusedDepth, confidenceMap, edge.1, lidarShape, aiShape,
      ⟨lidarCoverage, 1 - lidarCoverage, edge.2⟩⟩

/-- Embedding of `DepthFusionService.fuse` including its guard and handler:
`None` when `_ensure_cv2()` fails, `None` when the `try` body raises, the
result otherwise.  The service's configuration is threaded through
unchanged (the source never assigns `self.*` inside `fuse`), so the pair
returns it alongside the optional result. -/
def fuse (ext : FuseExternals) (cv2Available : Bool) (cfg : FusionConfig)
    (lidarDepth : List ℚ) (lidarShape : ℕ × ℕ)
    (aiDepth : List ℚ) (aiShape : ℕ × ℕ)
    (lidarConfidence : Option (List ℚ)) (aiConfidence : ℚ) :
    Option FusionResult × FusionConfig :=
  if !cv2Available then (none, cfg)
  else
    match fuseBody ext cfg lidarDepth lidarShape aiDepth aiShape lidarConfidence aiConfidence with
    | Except.ok r => (some r, cfg)
    | Except.error _ => (none, cfg)

/-! ## Metric calibration (`depth_anything.py`, `predict_metric_depth`) -/

/-- Per-pixel validity in `predict_metric_depth`:
`(lidar_resized > 0.1) & (lidar_resized < 5.0)` with hardcoded bounds, and
`conf_resized >= 1` only when a confidence map is supplied.  Both depth
comparisons are strict. -/
def validPixelDA (lidar : ℚ) (conf : Option ℚ) : Bool :=
  decide ((1:ℚ)/10 < lidar) && decide (lidar < 5) &&
    (match conf with
     | some c => decide (1 ≤ c)
     | none => true)

/-- Validity mask over the aligned LiDAR map (and optional aligned
confidence map) in `predict_metric_depth`. -/
def validMaskDA (lidarResized : List ℚ) (confResized : Option (List ℚ)) : List Bool :=
  match confResized with
  | some cs => List.zipWith (fun l c => validPixelDA l (some c)) lidarResized cs
  | none => lidarResized.map (fun l => validPixelDA l none)

/-- Number of valid calibration pixels, `valid_mask.sum()`. -/
def validCountDA (lidarResized : List ℚ) (confResized : Option (List ℚ)) : ℕ :=
  trueCount (validMaskDA lidarResized confResized)

/-- Return triple of `predict_metric_depth`: relative depth, optional
calibrated metric depth, and the overall confidence score. -/
structure MetricDepthResult where
  relative : List ℚ
  metric : Option (List ℚ)
  confidence : ℚ
deriving DecidableEq

/-- Embedding of the calibration part of
`DepthAnythingService.predict_metric_depth` (after the model inference and
the OpenCV alignment, both external): build the validity mask; when fewer
than 100 pixels are valid return the relative map only with the fixed
confidence 0.3; otherwise fit `1/lidar ≈ scale·relative + offset` by least
squares (`fitFn`, external LAPACK; it also reports the residual sum when
the design matrix has full rank), invert with the `1e-6` guard, clip to
`[0.1, 10.0]`, and score `max(0, min(1, 1 − 2·rmse))` with `rmse =
sqrt(residual/valid_count)` (`sqrtFn`, external float routine), or `0.7`
when no residual is reported. -/
def predict_metric_depth (fitFn : List ℚ → List ℚ → (ℚ × ℚ) × Option ℚ)
    (sqrtFn : ℚ → ℚ) (relativeDepth : List ℚ) (lidarResized : List ℚ)
    (confResized : Option (List ℚ)) : MetricDepthResult :=
  let mask := validMaskDA lidarResized confResized
  let validCount := trueCount mask
  if validCount < 100 then ⟨relativeDepth, none, 3/10⟩
  else
    let lidarValid := maskSelect lidarResized mask
    let relativeValid := maskSelect relativeDepth mask
    let invLidar := lidarValid.map (fun d => 1 / (d + 1/1000000))
    let fit := fitFn relativeValid invLidar
    let scale := fit.1.1
    let offset := fit.1.2
    let metric := relativeDepth.map
      (fun r => clipQ (1 / (scale * r + offset + 1/1000000)) (1/10) 10)
    let confidence :=
      match fit.2 with
      | some residual =>
        max 0 (min 1 (1 - sqrtFn (residual / validCount) * 2))
      | none => 7/10
    ⟨relativeDepth, some metric, confidence⟩

/-! ## Voxel-grid downsampling (`PointCloudExtractor._voxel_downsample`) -/

/-- Truncation toward zero of a rational, which is what
`ndarray.astype(np.int32)` performs on each float (int32 wraparound is not
modelled; voxel indices stay well inside 32 bits in practice). -/
def truncQ (q : ℚ) : ℤ := if 0 ≤ q then ⌊q⌋ else ⌈q⌉

/-- Voxel index of one point: componentwise `(points / voxel_size)`
truncated to integers. -/
def voxelIndex (s : ℚ) (p : ℚ × ℚ × ℚ) : ℤ × ℤ × ℤ :=
  (truncQ (p.1 / s), truncQ (p.2.1 / s), truncQ (p.2.2 / s))

/-- Number of representatives kept by the voxel-grid stage of
`_voxel_downsample`: `np.unique(voxel_indices, axis=0)` keeps one point per
occupied voxel, so the count is the number of distinct index triples.  (The
subsequent `np.random.choice` stage only runs when this count still
exceeds `max_points` and is nondeterministic, hence outside this model.) -/
def voxelCount (s : ℚ) (pts : List (ℚ × ℚ × ℚ)) : ℕ :=
  (pts.map (voxelIndex s)).toFinset.card

/-! ## Concrete capture streams and comparison definitions used by the
claim theorems -/

/-- Well-formed 32-byte LRAW header with version 1 and single-byte counts:
magic, `version:u16`, `flags:u16`, `mesh_count:u32`, `texture_count:u32`,
`depth_count:u32`, 12 reserved bytes. -/
def lrawHeader (flags mesh tex depth : ℕ) : List ℕ :=
  [76, 82, 65, 87, 1, 0, flags, 0, mesh, 0, 0, 0, tex, 0, 0, 0, depth, 0, 0, 0] ++
  List.replicate 12 0

/-- Complete 169-byte capture: header declaring one mesh anchor, whose
anchor declares 2 vertices and 0 faces (16-byte uuid, 64-byte transform,
counts, flag byte, 24 vertex bytes, 24 normal bytes). -/
def c1Full : List ℕ :=
  lrawHeader 0 1 0 0 ++ List.replicate 16 0 ++ List.replicate 64 0 ++
  [2, 0, 0, 0] ++ [0, 0, 0, 0] ++ [0] ++ List.replicate 24 0 ++ List.replicate 24 0

/-- Decode of the complete capture `c1Full`: one anchor with 2 vertices. -/
def c1FullData : LRAWData :=
  ⟨1, 0,
   [⟨List.replicate 16 0, List.replicate 16 0, [(0, 0, 0), (0, 0, 0)],
     [(0, 0, 0), (0, 0, 0)], [], none⟩],
   [], [], 2, 0⟩

/-- Decode of `c1Full` truncated to 133 bytes (inside the vertex buffer,
36 bytes before the declared end): the parser completes and returns an
anchor with only 1 of the 2 declared vertices and no normals. -/
def c1TruncData : LRAWData :=
  ⟨1, 0,
   [⟨List.replicate 16 0, List.replicate 16 0, [(0, 0, 0)], [], [], none⟩],
   [], [], 1, 0⟩

/-- Capture whose single anchor declares `2^30` vertices (bytes
`[0,0,0,64]` little-endian) and then ends: 121 bytes total, no vertex
data at all. -/
def c2Stream : List ℕ :=
  lrawHeader 0 1 0 0 ++ List.replicate 16 0 ++ List.replicate 64 0 ++
  [0, 0, 0, 64] ++ [0, 0, 0, 0] ++ [0]

/-- Decode of `c2Stream`: the parser accepts the implausible declared
count and returns an anchor with zero vertices. -/
def c2Data : LRAWData :=
  ⟨1, 0, [⟨List.replicate 16 0, List.replicate 16 0, [], [], [], none⟩], [], [], 0, 0⟩

/-- Stated from the claim's words, for comparison with the source: the
claim's calibrated AI depth `1/(scale·relative + offset)` clipped to
`[min_depth, 2·max_depth]`, with no `1e-6` guard in the denominator. -/
def calibPixelClaimed (cfg : FusionConfig) (scale offset r : ℚ) : ℚ :=
  clipQ (1 / (scale * r + offset)) cfg.min_depth (cfg.max_depth * 2)

/-- Stated from the claim's words, for comparison with the source: a
calibration pixel is valid when the aligned LiDAR depth lies within the
closed interval `[0.1, 5.0]` and, if confidence is supplied, the
confidence is at least 1. -/
def validPixelClaimed (lidar : ℚ) (conf : Option ℚ) : Bool :=
  decide ((1:ℚ)/10 ≤ lidar) && decide (lidar ≤ 5) &&
    (match conf with
     | some c => decide (1 ≤ c)
     | none => true)

/-- Count of claim-valid calibration pixels (closed-interval bounds). -/
def validCountClaimed (lidarResized : List ℚ) (confResized : Option (List ℚ)) : ℕ :=
  match confResized with
  | some cs =>
    trueCount (List.zipWith (fun l c => validPixelClaimed l (some c)) lidarResized cs)
  | none => trueCount (lidarResized.map (fun l => validPixelClaimed l none))

/-- Degenerate external collaborators (identity resampling, empty Sobel
output, always-failing fit) used to instantiate universally quantified
theorems at a concrete point. -/
def trivialExternals : FuseExternals :=
  ⟨fun l _ => l, fun l _ => l, fun _ => [], fun _ _ => none⟩

/-- Concrete anchor for witnesses: translation by 1 along x, one vertex,
one normal, one degenerate face. -/
def anchorA : AnchorGeo :=
  ⟨⟨1, 0, 0, 1, 0, 1, 0, 0, 0, 0, 1, 0, 0, 0, 0, 1⟩,
   [⟨0, 0, 0⟩], [⟨0, 0, 1⟩], [(0, 0, 0)]⟩

/-- Concrete anchor for witnesses: translation by 2 along y, two vertices,
two normals, one face. -/
def anchorB : AnchorGeo :=
  ⟨⟨1, 0, 0, 0, 0, 1, 0, 2, 0, 0, 1, 0, 0, 0, 0, 1⟩,
   [⟨1, 0, 0⟩, ⟨0, 1, 0⟩], [⟨0, 0, 1⟩, ⟨0, 0, 1⟩], [(0, 1, 1)]⟩

/-! ## Helper lemmas -/

/-- Lower bound of `np.clip`: holds whenever the interval is nonempty. -/
theorem clipQ_lower (x lo hi : ℚ) (h : lo ≤ hi) : lo ≤ clipQ x lo hi :=
  le_min h (le_max_right x lo)

/-- Upper bound of `np.clip`. -/
theorem clipQ_upper (x lo hi : ℚ) : clipQ x lo hi ≤ hi := min_le_left hi (max x lo)

/-- Word count of a frombuffer view: one 32-bit word per 4 bytes. -/
theorem toWords_length : ∀ bs : List ℕ, (toWords bs).length = bs.length / 4
  | _ :: _ :: _ :: _ :: rest => by
    simp only [toWords, List.length_cons, toWords_length rest]
    omega
  | [] => by simp [toWords]
  | [_] => by simp [toWords]
  | [_, _] => by simp [toWords]
  | [_, _, _] => by simp [toWords]

/-- Triple count of a `reshape(-1, 3)` view: one triple per 3 words. -/
theorem toTriples_length : ∀ ws : List ℕ, (toTriples ws).length = ws.length / 3
  | _ :: _ :: _ :: rest => by
    simp only [toTriples, List.length_cons, toTriples_length rest]
    omega
  | [] => by simp [toTriples]
  | [_] => by simp [toTriples]
  | [_, _] => by simp [toTriples]

/-- Finset of a mapped list is the image of the list's finset. -/
theorem list_toFinset_map {α β : Type} [DecidableEq α] [DecidableEq β]
    (l : List α) (f : α → β) : (l.map f).toFinset = l.toFinset.image f := by
  ext b
  simp [List.mem_map]

/-- Floor of a rational divided by a positive natural, as an integer
division (Euclidean, which coincides with floor division here). -/
theorem floor_div_natCast (a : ℚ) (k : ℕ) (hk : 0 < k) :
    ⌊a / (k : ℚ)⌋ = ⌊a⌋ / (k : ℤ) := by
  have hk0 : (0 : ℚ) < (k : ℚ) := by exact_mod_cast hk
  have hkz : (0 : ℤ) < (k : ℤ) := by exact_mod_cast hk
  have key : ∀ z : ℤ, z ≤ ⌊a / (k : ℚ)⌋ ↔ z ≤ ⌊a⌋ / (k : ℤ) := by
    intro z
    rw [Int.le_floor, le_div_iff₀ hk0, Int.le_ediv_iff_mul_le hkz, Int.le_floor]
    push_cast
    rfl
  exact le_antisymm ((key _).mp le_rfl) ((key _).mpr le_rfl)

/-- Truncation toward zero commutes with division by a positive natural:
truncating `a/k` equals truncating `trunc(a)/k`.  This is the reason voxel
cells at size `k·s` are unions of cells at size `s`. -/
theorem truncQ_div_natCast (a : ℚ) (k : ℕ) (hk : 0 < k) :
    truncQ (a / (k : ℚ)) = truncQ ((truncQ a : ℚ) / (k : ℚ)) := by
  have hk0 : (0 : ℚ) < (k : ℚ) := by exact_mod_cast hk
  by_cases ha : 0 ≤ a
  · have h1 : truncQ a = ⌊a⌋ := if_pos ha
    have h2 : (0 : ℚ) ≤ a / (k : ℚ) := div_nonneg ha (le_of_lt hk0)
    have h3 : (0 : ℚ) ≤ (⌊a⌋ : ℚ) / (k : ℚ) := by
      apply div_nonneg _ (le_of_lt hk0)
      exact_mod_cast Int.floor_nonneg.mpr ha
    rw [truncQ, if_pos h2, h1, truncQ, if_pos h3, floor_div_natCast a k hk,
      floor_div_natCast _ k hk, Int.floor_intCast]
  · have ha' : a < 0 := lt_of_not_le ha
    have h1 : truncQ a = ⌈a⌉ := if_neg ha
    have h2 : a / (k : ℚ) < 0 := div_neg_of_neg_of_pos ha' hk0
    have hceil : (⌈a⌉ : ℤ) ≤ 0 := Int.ceil_le.mpr (by push_cast; linarith)
    have hkey : ∀ b : ℤ, b ≤ 0 →
        truncQ ((b : ℚ) / (k : ℚ)) = ⌈(b : ℚ) / (k : ℚ)⌉ := by
      intro b hb
      by_cases hq : 0 ≤ (b : ℚ) / (k : ℚ)
      · have hb0 : b = 0 := by
          have : (0 : ℚ) ≤ (b : ℚ) := by
            by_contra hneg
            exact hq.not_lt (div_neg_of_neg_of_pos (lt_of_not_le hneg) hk0)
          have : (0 : ℤ) ≤ b := by exact_mod_cast this
          omega
        subst hb0
        rw [truncQ, if_pos hq]
        norm_num
      · rw [truncQ, if_neg hq]
    have hmain : ⌈a / (k : ℚ)⌉ = ⌈(⌈a⌉ : ℚ) / (k : ℚ)⌉ := by
      have e1 : ⌈a / (k : ℚ)⌉ = -⌊(-a) / (k : ℚ)⌋ := by
        rw [neg_div, Int.floor_neg, neg_neg]
      have e2 : ⌈(⌈a⌉ : ℚ) / (k : ℚ)⌉ = -⌊(-(⌈a⌉ : ℚ)) / (k : ℚ)⌋ := by
        rw [neg_div, Int.floor_neg, neg_neg]
      rw [e1, e2, floor_div_natCast (-a) k hk, floor_div_natCast (-(⌈a⌉ : ℚ)) k hk,
        Int.floor_neg, Int.floor_neg, Int.ceil_intCast]
    rw [truncQ, if_neg (not_le.mpr h2), h1, hkey (⌈a⌉) hceil, hmain]

/-- Merged vertex list of the reconstruction loop: the concatenation of
each anchor's vertices under its own homogeneous transform (independent of
the starting offset). -/
theorem reconstructCore_vertices : ∀ (l : List AnchorGeo) (off : ℕ),
    (reconstructCore l off).vertices =
      l.flatMap (fun a => a.vertices.map (applyTransform a.transform))
  | [], _ => rfl
  | a :: rest, off => by
    simp [reconstructCore, reconstructCore_vertices rest]

/-- Merged normal list: each anchor's normals under its rotation block. -/
theorem reconstructCore_normals : ∀ (l : List AnchorGeo) (off : ℕ),
    (reconstructCore l off).normals =
      l.flatMap (fun a => a.normals.map (applyRotation a.transform))
  | [], _ => rfl
  | a :: rest, off => by
    simp [reconstructCore, reconstructCore_normals rest]

/-- Merged face list: each anchor's faces shifted by the starting offset
plus the total vertex count of all preceding anchors. -/
theorem reconstructCore_faces : ∀ (l : List AnchorGeo) (off : ℕ),
    (reconstructCore l off).faces =
      (l.zip (l.scanl (fun acc a => acc + a.vertices.length) off)).flatMap
        (fun p => p.1.faces.map (fun f => (f.1 + p.2, f.2.1 + p.2, f.2.2 + p.2)))
  | [], _ => rfl
  | a :: rest, off => by
    simp [reconstructCore, List.scanl_cons,
      reconstructCore_faces rest (off + a.vertices.length)]

/-- Vertex count of the merged mesh: offset-independent sum of per-anchor
vertex counts. -/
theorem reconstructCore_vertices_length (l : List AnchorGeo) (off : ℕ) :
    (reconstructCore l off).vertices.length =
      (l.map (fun a => a.vertices.length)).sum := by
  rw [reconstructCore_vertices]
  induction l with
  | nil => rfl
  | cons a rest ih => simp [ih]

/-- Face-index validity is preserved by the reconstruction loop: if every
per-anchor face index is below that anchor's vertex count, every merged
face index is below the starting offset plus the merged vertex count. -/
theorem reconstructCore_faces_valid : ∀ (l : List AnchorGeo) (off : ℕ),
    (∀ a ∈ l, ∀ f ∈ a.faces,
      f.1 < a.vertices.length ∧ f.2.1 < a.vertices.length ∧ f.2.2 < a.vertices.length) →
    ∀ f ∈ (reconstructCore l off).faces,
      f.1 < off + (reconstructCore l off).vertices.length ∧
      f.2.1 < off + (reconstructCore l off).vertices.length ∧
      f.2.2 < off + (reconstructCore l off).vertices.length
  | [], _, _, f, hf => absurd hf (by simp [reconstructCore])
  | a :: rest, off, hvalid, f, hf => by
    have hlen : (reconstructCore (a :: rest) off).vertices.length =
        a.vertices.length + (reconstructCore rest (off + a.vertices.length)).vertices.length := by
      simp [reconstructCore, reconstructCore_vertices_length]
    have hmem : f ∈ (a.faces.map (fun g => (g.1 + off, g.2.1 + off, g.2.2 + off))) ∨
        f ∈ (reconstructCore rest (off + a.vertices.length)).faces := by
      simpa [reconstructCore] using hf
    rcases hmem with hmem | hmem
    · rcases List.mem_map.mp hmem with ⟨g, hg, rfl⟩
      have hb := hvalid a (by simp) g hg
      refine ⟨?_, ?_, ?_⟩ <;> simp only [hlen] <;> omega
    · have ih := reconstructCore_faces_valid rest (off + a.vertices.length)
        (fun b hb => hvalid b (by simp [hb])) f hmem
      refine ⟨?_, ?_, ?_⟩ <;> simp only [hlen] <;> omega

/-! ## Claim theorems -/

/-- C3: for all input depth maps, validity mask and AI confidence value,
every pixel of the confidence map produced by `_compute_confidence` lies
within `[0, 1]` — the final `np.clip(confidence, 0.0, 1.0)` bounds every
pixel (arithmetic modelled over exact rationals). -/
theorem C3_confidence_unit_interval (lidar ai : List ℚ) (mask : List Bool)
    (aiConf c : ℚ) (hc : c ∈ compute_confidence lidar ai mask aiConf) :
    0 ≤ c ∧ c ≤ 1 := by
  simp only [compute_confidence] at hc
  rcases List.mem_map.mp hc with ⟨y, _, rfl⟩
  exact ⟨clipQ_lower y 0 1 (by norm_num), clipQ_upper y 0 1⟩

/-- Witness for C3 at a concrete pixel: LiDAR 2 m, AI 3 m, valid mask,
AI confidence 1/2; the confidence value is 2/5 and lies in `[0, 1]`. -/
theorem C3_confidence_unit_interval_witness : 0 ≤ (2/5 : ℚ) ∧ (2/5 : ℚ) ≤ 1 :=
  C3_confidence_unit_interval [2] [3] [true] (1/2) (2/5) (by
    simp [compute_confidence, confidencePixelRaw, disagreementPenalty, trueCount, clipQ]
    norm_num)

/-- C6 counterexample: on the empty anchor list the claim requires a merged
mesh with vertex count 0 (the empty sum), but `_reconstruct_mesh` reaches
`np.vstack([])`, which raises `ValueError`, so no merged mesh is produced. -/
theorem C6_empty_anchor_list_cex : reconstruct_mesh [] = none := rfl

/-- C6 amended: for every NONEMPTY list of mesh anchors, reconstruction
produces a merged mesh whose vertex count is the sum of the anchors'
vertex counts; vertices are transformed by the 4×4 transform in
homogeneous coordinates with `w = 1`, normals by the upper-left 3×3 block,
and face indices are shifted by the total vertex count of all preceding
anchors, so merged face indices stay below the merged vertex count
whenever the per-anchor indices were below their anchor's vertex count. -/
theorem C6_reconstruct_merged_mesh (anchors : List AnchorGeo) (h : anchors ≠ []) :
    ∃ m, reconstruct_mesh anchors = some m ∧
      m.vertices.length = (anchors.map (fun a => a.vertices.length)).sum ∧
      m.vertices = anchors.flatMap (fun a => a.vertices.map (applyTransform a.transform)) ∧
      m.normals = anchors.flatMap (fun a => a.normals.map (applyRotation a.transform)) ∧
      m.faces = (anchors.zip (anchorOffsets anchors)).flatMap
        (fun p => p.1.faces.map (fun f => (f.1 + p.2, f.2.1 + p.2, f.2.2 + p.2))) ∧
      ((∀ a ∈ anchors, ∀ f ∈ a.faces,
          f.1 < a.vertices.length ∧ f.2.1 < a.vertices.length ∧
            f.2.2 < a.vertices.length) →
        ∀ f ∈ m.faces,
          f.1 < m.vertices.length ∧ f.2.1 < m.vertices.length ∧
            f.2.2 < m.vertices.length) := by
  refine ⟨reconstructCore anchors 0, ?_, reconstructCore_vertices_length anchors 0,
    reconstructCore_vertices anchors 0, reconstructCore_normals anchors 0, ?_, ?_⟩
  · simp [reconstruct_mesh, List.isEmpty_iff, h]
  · rw [anchorOffsets]
    exact reconstructCore_faces anchors 0
  · intro hvalid f hf
    have hres := reconstructCore_faces_valid anchors 0 hvalid f hf
    simpa using hres

/-- Witness for C6 on the concrete two-anchor scene `[anchorA, anchorB]`. -/
theorem C6_reconstruct_merged_mesh_witness :
    ∃ m, reconstruct_mesh [anchorA, anchorB] = some m ∧
      m.vertices.length = ([anchorA, anchorB].map (fun a => a.vertices.length)).sum ∧
      m.vertices = [anchorA, anchorB].flatMap
        (fun a => a.vertices.map (applyTransform a.transform)) ∧
      m.normals = [anchorA, anchorB].flatMap
        (fun a => a.normals.map (applyRotation a.transform)) ∧
      m.faces = ([anchorA, anchorB].zip (anchorOffsets [anchorA, anchorB])).flatMap
        (fun p => p.1.faces.map (fun f => (f.1 + p.2, f.2.1 + p.2, f.2.2 + p.2))) ∧
      ((∀ a ∈ [anchorA, anchorB], ∀ f ∈ a.faces,
          f.1 < a.vertices.length ∧ f.2.1 < a.vertices.length ∧
            f.2.2 < a.vertices.length) →
        ∀ f ∈ m.faces,
          f.1 < m.vertices.length ∧ f.2.1 < m.vertices.length ∧
            f.2.2 < m.vertices.length) :=
  C6_reconstruct_merged_mesh [anchorA, anchorB] (by simp)

/-- C7 counterexample: at a LiDAR-valid pixel with the default
configuration (`weight_lidar = 0.8`, `weight_ai = 0.2`) the normalized
weights sum to `1000000/1000001`, not exactly 1, because the source adds
`1e-6` to the total before dividing. -/
theorem C7_weight_sum_cex :
    lidarWeightNorm defaultFusionConfig true + aiWeightNorm defaultFusionConfig true ≠ 1 := by
  simp [lidarWeightNorm, aiWeightNorm, lidarWeightRaw, aiWeightRaw, totalWeight,
    defaultFusionConfig]
  norm_num

/-- C7 amended: the raw per-pixel weights are the configured
`weight_lidar` where LiDAR is valid and 0 elsewhere, and `weight_ai` where
valid and 1 elsewhere; after normalization the pair sums to
`S / (S + 1e-6)` with `S` the raw sum — strictly LESS than 1 at every
pixel (not exactly 1) — and the fused depth is the per-pixel weighted sum
clipped to `[min_depth, max_depth]`. -/
theorem C7_weight_normalization (cfg : FusionConfig) (v : Bool) (lidar ai : ℚ)
    (hl : 0 ≤ cfg.weight_lidar) (ha : 0 ≤ cfg.weight_ai)
    (hm : cfg.min_depth ≤ cfg.max_depth) :
    lidarWeightRaw cfg v = (if v then cfg.weight_lidar else 0) ∧
    aiWeightRaw cfg v = (if v then cfg.weight_ai else 1) ∧
    lidarWeightNorm cfg v + aiWeightNorm cfg v =
      (lidarWeightRaw cfg v + aiWeightRaw cfg v) /
        (lidarWeightRaw cfg v + aiWeightRaw cfg v + 1/1000000) ∧
    lidarWeightNorm cfg v + aiWeightNorm cfg v < 1 ∧
    fusedPixel cfg v lidar ai =
      clipQ (lidarWeightNorm cfg v * lidar + aiWeightNorm cfg v * ai)
        cfg.min_depth cfg.max_depth ∧
    cfg.min_depth ≤ fusedPixel cfg v lidar ai ∧
    fusedPixel cfg v lidar ai ≤ cfg.max_depth := by
  have hS : 0 ≤ lidarWeightRaw cfg v + aiWeightRaw cfg v := by
    cases v
    · simp [lidarWeightRaw, aiWeightRaw]
    · simp only [lidarWeightRaw, aiWeightRaw, if_pos]
      exact add_nonneg hl ha
  have hpos : 0 < lidarWeightRaw cfg v + aiWeightRaw cfg v + 1/1000000 := by
    have : (0:ℚ) < 1/1000000 := by norm_num
    linarith
  have heq : lidarWeightNorm cfg v + aiWeightNorm cfg v =
      (lidarWeightRaw cfg v + aiWeightRaw cfg v) /
        (lidarWeightRaw cfg v + aiWeightRaw cfg v + 1/1000000) := by
    rw [lidarWeightNorm, aiWeightNorm, totalWeight, div_add_div_same]
  refine ⟨rfl, rfl, heq, ?_, rfl, clipQ_lower _ _ _ hm, clipQ_upper _ _ _⟩
  rw [heq, div_lt_one hpos]
  have : (0:ℚ) < 1/1000000 := by norm_num
  linarith

/-- Witness for C7 at the default configuration, a valid pixel,
LiDAR 1 m and AI 2 m. -/
theorem C7_weight_normalization_witness :
    lidarWeightRaw defaultFusionConfig true = (if true then defaultFusionConfig.weight_lidar else 0) ∧
    aiWeightRaw defaultFusionConfig true = (if true then defaultFusionConfig.weight_ai else 1) ∧
    lidarWeightNorm defaultFusionConfig true + aiWeightNorm defaultFusionConfig true =
      (lidarWeightRaw defaultFusionConfig true + aiWeightRaw defaultFusionConfig true) /
        (lidarWeightRaw defaultFusionConfig true + aiWeightRaw defaultFusionConfig true + 1/1000000) ∧
    lidarWeightNorm defaultFusionConfig true + aiWeightNorm defaultFusionConfig true < 1 ∧
    fusedPixel defaultFusionConfig true 1 2 =
      clipQ (lidarWeightNorm defaultFusionConfig true * 1 + aiWeightNorm defaultFusionConfig true * 2)
        defaultFusionConfig.min_depth defaultFusionConfig.max_depth ∧
    defaultFusionConfig.min_depth ≤ fusedPixel defaultFusionConfig true 1 2 ∧
    fusedPixel defaultFusionConfig true 1 2 ≤ defaultFusionConfig.max_depth :=
  C7_weight_normalization defaultFusionConfig true 1 2
    (by norm_num [defaultFusionConfig]) (by norm_num [defaultFusionConfig])
    (by norm_num [defaultFusionConfig])

/-- C8 counterexample: at `scale = 1`, `offset = 0`, `relative = 1` with
the default configuration, the source computes
`clip(1/(1·1 + 0 + 1e-6)) = 1000000/1000001`, which differs from the
claim's `clip(1/(scale·relative + offset)) = 1`: the code guards the
denominator with `1e-6`. -/
theorem C8_epsilon_guard_cex :
    calibPixel defaultFusionConfig 1 0 1 ≠ calibPixelClaimed defaultFusionConfig 1 0 1 := by
  simp [calibPixel, calibPixelClaimed, clipQ, defaultFusionConfig]
  norm_num

/-- C8 amended: when the calibration fit succeeds with parameters
`(scale, offset)`, each calibrated pixel equals
`1/(scale·relative + offset + 1e-6)` clipped to `[min_depth, 2·max_depth]`,
and hence every output pixel lies within that interval, whose upper bound
is twice `max_depth` rather than `max_depth`. -/
theorem C8_calibrated_depth_bounds (cfg : FusionConfig) (s o : ℚ)
    (rel lidarM : List ℚ) (mask : List Bool) (x : ℚ)
    (hx : x ∈ calibrate_to_metric (fun _ _ => some (s, o)) cfg rel lidarM mask)
    (hb : cfg.min_depth ≤ cfg.max_depth * 2) :
    (cfg.min_depth ≤ x ∧ x ≤ cfg.max_depth * 2) ∧
    ∃ r ∈ rel,
      x = clipQ (1 / (s * r + o + 1/1000000)) cfg.min_depth (cfg.max_depth * 2) := by
  simp only [calibrate_to_metric] at hx
  rcases List.mem_map.mp hx with ⟨r, hr, rfl⟩
  exact ⟨⟨clipQ_lower _ _ _ hb, clipQ_upper _ _ _⟩, ⟨r, hr, rfl⟩⟩

/-- Witness for C8 at the default configuration, fit `(1, 0)`, relative
map `[1]`. -/
theorem C8_calibrated_depth_bounds_witness :
    (defaultFusionConfig.min_depth ≤ calibPixel defaultFusionConfig 1 0 1 ∧
      calibPixel defaultFusionConfig 1 0 1 ≤ defaultFusionConfig.max_depth * 2) ∧
    ∃ r ∈ [(1:ℚ)],
      calibPixel defaultFusionConfig 1 0 1 =
        clipQ (1 / (1 * r + 0 + 1/1000000)) defaultFusionConfig.min_depth
          (defaultFusionConfig.max_depth * 2) :=
  C8_calibrated_depth_bounds defaultFusionConfig 1 0 [1] [] []
    (calibPixel defaultFusionConfig 1 0 1)
    (by simp [calibrate_to_metric]) (by norm_num [defaultFusionConfig])

/-- Bind of a successful `Except` computation reduces to the continuation. -/
theorem except_bind_ok {E A B : Type} (a : A) (f : A → Except E B) :
    ((Except.ok a : Except E A) >>= f) = f a := rfl

/-- Unpacking 8 bytes from a stream that starts with exactly 8 bytes. -/
theorem unpackU64_exact (ts rest : List ℕ) (h : ts.length = 8) :
    unpackU64 (ts ++ rest) = Except.ok (leNat ts, rest) := by
  simp [unpackU64, readBytes, List.take_left' h, List.drop_left' h, h]

/-- Unpacking 4 bytes from a stream that starts with exactly 4 bytes. -/
theorem unpackU32_exact (b rest : List ℕ) (h : b.length = 4) :
    unpackU32 (b ++ rest) = Except.ok (leNat b, rest) := by
  simp [unpackU32, readBytes, List.take_left' h, List.drop_left' h, h]

/-- Count of true entries in a constant-true mask. -/
theorem trueCount_replicate_true (n : ℕ) : trueCount (List.replicate n true) = n := by
  induction n with
  | zero => rfl
  | succ m ih => simp [trueCount, List.replicate_succ, List.filter_cons, ih]

/-- Count of true entries in a constant-false mask. -/
theorem trueCount_replicate_false (n : ℕ) : trueCount (List.replicate n false) = 0 := by
  induction n with
  | zero => rfl
  | succ m ih => simp [trueCount, List.replicate_succ, List.filter_cons, ih]

/-- C1 counterexample: `c1Full` truncated to 133 bytes — with correct magic
and 36 bytes before its declared end of 169 — does NOT fail with any error
(there is no `TruncatedStream` in the code): `parse_lraw` completes and
returns a partially decoded result. -/
theorem C1_truncated_silent_cex :
    parse_lraw (c1Full.take 133) = Except.ok c1TruncData ∧ c1Full.length = 169 :=
  ⟨rfl, rfl⟩

/-- C1 amended: `parse_lraw` performs no truncation detection.  A stream
with correct magic truncated strictly before its declared end can decode
successfully into a partially decoded result: the truncation of `c1Full`
to 133 bytes is a strict prefix that parses without error into an anchor
with 1 vertex where the complete stream declares and parses 2.  (At other
truncation offsets the parser instead surfaces generic `struct.error` or
numpy `ValueError` failures, never a dedicated truncation error.) -/
theorem C1_no_truncation_check :
    (c1Full.take 133) <+: c1Full ∧ c1Full.take 133 ≠ c1Full ∧
    parse_lraw c1Full = Except.ok c1FullData ∧
    parse_lraw (c1Full.take 133) = Except.ok c1TruncData ∧
    c1TruncData.mesh_anchors.map (fun a => a.vertices.length) = [1] ∧
    c1FullData.mesh_anchors.map (fun a => a.vertices.length) = [2] :=
  ⟨List.take_prefix 133 c1Full, by decide, rfl, rfl, rfl, rfl⟩

/-- C2 counterexample: a capture whose anchor declares `2^30` vertices is
not rejected — decode does not fail with `ImplausibleCount` (no such error
exists); it completes successfully. -/
theorem C2_no_implausible_count_cex : parse_lraw c2Stream = Except.ok c2Data := rfl

/-- C2 amended: the decoder has no sanity ceiling.  A declared vertex count
of `2^30` (bytes `[0,0,0,64]`) is accepted; the read of `count × 12` bytes
is attempted exactly as written (`f.read(vertex_count * 12)`), returns the
zero bytes remaining, and decode completes with an anchor containing zero
of the `2^30` declared vertices. -/
theorem C2_oversized_count_accepted :
    leNat [0, 0, 0, 64] = 2 ^ 30 ∧
    parse_lraw c2Stream = Except.ok c2Data ∧
    c2Data.mesh_anchors.map (fun a => a.vertices.length) = [0] :=
  ⟨by decide, rfl, rfl⟩

/-- C4 counterexample: for the fixed two-point cloud
`[(1,0,0), (1.4,0,0)]` and voxel sizes `s1 = 0.8 ≤ s2 = 1.2`, the larger
voxel size retains MORE representatives (2) than the smaller (1):
quantization cells move with the size, so the count is not monotone. -/
theorem C4_voxel_monotonicity_cex :
    ((4:ℚ)/5 ≤ (6:ℚ)/5) ∧
    voxelCount ((4:ℚ)/5) [((1:ℚ), (0:ℚ), (0:ℚ)), ((7:ℚ)/5, 0, 0)] = 1 ∧
    voxelCount ((6:ℚ)/5) [((1:ℚ), (0:ℚ), (0:ℚ)), ((7:ℚ)/5, 0, 0)] = 2 := by
  have h0 : truncQ (0:ℚ) = 0 := by rw [truncQ, if_pos le_rfl]; norm_num
  refine ⟨by norm_num, ?_, ?_⟩
  · have h1 : truncQ ((5:ℚ)/4) = 1 := by
      rw [truncQ, if_pos (by norm_num), Int.floor_eq_iff]
      norm_num
    have h2 : truncQ ((7:ℚ)/4) = 1 := by
      rw [truncQ, if_pos (by norm_num), Int.floor_eq_iff]
      norm_num
    rw [voxelCount]
    rw [show [((1:ℚ), (0:ℚ), (0:ℚ)), ((7:ℚ)/5, 0, 0)].map (voxelIndex ((4:ℚ)/5))
        = [(1, 0, 0), (1, 0, 0)] by
      simp [voxelIndex]
      norm_num [h0, h1, h2]]
    decide
  · have h1 : truncQ ((5:ℚ)/6) = 0 := by
      rw [truncQ, if_pos (by norm_num), Int.floor_eq_iff]
      norm_num
    have h2 : truncQ ((7:ℚ)/6) = 1 := by
      rw [truncQ, if_pos (by norm_num), Int.floor_eq_iff]
      norm_num
    rw [voxelCount]
    rw [show [((1:ℚ), (0:ℚ), (0:ℚ)), ((7:ℚ)/5, 0, 0)].map (voxelIndex ((6:ℚ)/5))
        = [(0, 0, 0), (1, 0, 0)] by
      simp [voxelIndex]
      norm_num [h0, h1, h2]]
    decide

/-- C4 amended: the representative count IS monotonically non-increasing
along integer refinements of the voxel size — for every cloud, every voxel
size `s` and every positive integer `k`, the count at size `k·s` is at
most the count at size `s`, because each size-`s` truncation cell lands in
a single size-`k·s` cell. -/
theorem C4_voxel_count_multiple_monotone (pts : List (ℚ × ℚ × ℚ)) (s : ℚ) (k : ℕ)
    (hk : 0 < k) : voxelCount ((k:ℚ) * s) pts ≤ voxelCount s pts := by
  have hpoint : ∀ p : ℚ × ℚ × ℚ, voxelIndex ((k:ℚ) * s) p =
      (fun t : ℤ × ℤ × ℤ => (truncQ ((t.1 : ℚ) / (k:ℚ)), truncQ ((t.2.1 : ℚ) / (k:ℚ)),
        truncQ ((t.2.2 : ℚ) / (k:ℚ)))) (voxelIndex s p) := by
    intro p
    have e : ∀ x : ℚ, x / ((k:ℚ) * s) = (x / s) / (k:ℚ) := by
      intro x
      rw [div_div, mul_comm]
    show (truncQ (p.1 / ((k:ℚ) * s)), truncQ (p.2.1 / ((k:ℚ) * s)),
        truncQ (p.2.2 / ((k:ℚ) * s))) =
      (truncQ ((truncQ (p.1 / s) : ℚ) / (k:ℚ)), truncQ ((truncQ (p.2.1 / s) : ℚ) / (k:ℚ)),
        truncQ ((truncQ (p.2.2 / s) : ℚ) / (k:ℚ)))
    rw [e, e, e, truncQ_div_natCast (p.1 / s) k hk, truncQ_div_natCast (p.2.1 / s) k hk,
      truncQ_div_natCast (p.2.2 / s) k hk]
  have hmap : pts.map (voxelIndex ((k:ℚ) * s)) =
      (pts.map (voxelIndex s)).map
        (fun t : ℤ × ℤ × ℤ => (truncQ ((t.1 : ℚ) / (k:ℚ)), truncQ ((t.2.1 : ℚ) / (k:ℚ)),
          truncQ ((t.2.2 : ℚ) / (k:ℚ)))) := by
    rw [List.map_map]
    exact List.map_congr_left (fun p _ => hpoint p)
  rw [voxelCount, voxelCount, hmap, list_toFinset_map]
  exact Finset.card_image_le

/-- Witness for C4 amended: doubling the unit voxel size on a one-point
cloud does not increase the representative count. -/
theorem C4_voxel_count_multiple_monotone_witness :
    voxelCount (((2:ℕ):ℚ) * 1) [((3:ℚ)/2, 0, 0)] ≤ voxelCount 1 [((3:ℚ)/2, 0, 0)] :=
  C4_voxel_count_multiple_monotone [((3:ℚ)/2, 0, 0)] 1 2 (by norm_num)

/-- C5 counterexample: with 100 aligned LiDAR pixels all exactly at the
lower bound 0.1 m, the claim's closed-interval validity counts 100 valid
pixels — not fewer than 100 — yet the code (strict `> 0.1`) counts zero
and returns the insufficient fallback `(relative, None, 0.3)`. -/
theorem C5_inclusive_bounds_cex :
    validCountClaimed (List.replicate 100 ((1:ℚ)/10)) none = 100 ∧
    ¬ validCountClaimed (List.replicate 100 ((1:ℚ)/10)) none < 100 ∧
    predict_metric_depth (fun _ _ => ((0, 0), none)) (fun q => q)
      (List.replicate 100 ((1:ℚ)/2)) (List.replicate 100 ((1:ℚ)/10)) none =
      ⟨List.replicate 100 ((1:ℚ)/2), none, 3/10⟩ := by
  have hclaim : validPixelClaimed ((1:ℚ)/10) none = true := by
    simp [validPixelClaimed]
    norm_num
  have hcode : validPixelDA ((1:ℚ)/10) none = false := by
    simp [validPixelDA]
  have hcount : validCountClaimed (List.replicate 100 ((1:ℚ)/10)) none = 100 := by
    show trueCount ((List.replicate 100 ((1:ℚ)/10)).map
      (fun l => validPixelClaimed l none)) = 100
    rw [List.map_replicate, hclaim, trueCount_replicate_true]
  have hmask : validMaskDA (List.replicate 100 ((1:ℚ)/10)) none =
      List.replicate 100 false := by
    show (List.replicate 100 ((1:ℚ)/10)).map (fun l => validPixelDA l none) =
      List.replicate 100 false
    rw [List.map_replicate, hcode]
  refine ⟨hcount, by omega, ?_⟩
  rw [predict_metric_depth]
  simp only [hmask, trueCount_replicate_false]
  rw [if_pos (by norm_num)]

/-- C5 amended: `predict_metric_depth` returns the insufficient fallback —
relative depth only, no metric map, fixed confidence 0.3 — exactly when
fewer than 100 pixels are valid, where a pixel is valid when the aligned
LiDAR depth lies STRICTLY between the hardcoded bounds 0.1 and 5.0 m
(exclusive, not the closed interval) and, if a confidence map is supplied,
its aligned confidence is at least 1. -/
theorem C5_insufficient_iff_fewer_than_100
    (fitFn : List ℚ → List ℚ → (ℚ × ℚ) × Option ℚ) (sqrtFn : ℚ → ℚ)
    (rel lidarR : List ℚ) (conf : Option (List ℚ)) :
    ((predict_metric_depth fitFn sqrtFn rel lidarR conf).metric = none ↔
      validCountDA lidarR conf < 100) ∧
    (validCountDA lidarR conf < 100 →
      predict_metric_depth fitFn sqrtFn rel lidarR conf = ⟨rel, none, 3/10⟩) := by
  have hcond : validCountDA lidarR conf = trueCount (validMaskDA lidarR conf) := rfl
  by_cases h : validCountDA lidarR conf < 100
  · have he : predict_metric_depth fitFn sqrtFn rel lidarR conf = ⟨rel, none, 3/10⟩ := by
      rw [predict_metric_depth, if_pos (by rw [← hcond]; exact h)]
    exact ⟨⟨fun _ => h, fun _ => by rw [he]⟩, fun _ => he⟩
  · have he : (predict_metric_depth fitFn sqrtFn rel lidarR conf).metric ≠ none := by
      rw [predict_metric_depth, if_neg (by rw [← hcond]; exact h)]
      simp
    exact ⟨⟨fun hm => absurd hm he, fun hc => absurd hc h⟩, fun hc => absurd hc h⟩

/-- Witness for C5 amended on empty aligned maps: zero valid pixels, so
the fallback triple is returned and the equivalence holds. -/
theorem C5_insufficient_iff_fewer_than_100_witness :
    predict_metric_depth (fun _ _ => ((0, 0), none)) (fun q => q) [] [] none =
      ⟨[], none, 3/10⟩ :=
  (C5_insufficient_iff_fewer_than_100 (fun _ _ => ((0, 0), none)) (fun q => q)
    [] [] none).2 (by decide)

/-- C9: `fuse` is total — for every configuration, every input, every
external collaborator and whether or not OpenCV imported, it returns an
optional result (never propagates an exception: the unavailable-backend
guard returns `None` and the `try/except` maps every body exception to
`None`), and the service configuration is returned unchanged — the source
assigns no `self.*` field inside `fuse`. -/
theorem C9_fuse_total_config_unchanged (ext : FuseExternals) (avail : Bool)
    (cfg : FusionConfig) (lidarDepth : List ℚ) (lidarShape : ℕ × ℕ)
    (aiDepth : List ℚ) (aiShape : ℕ × ℕ) (lidarConfidence : Option (List ℚ))
    (aiConfidence : ℚ) :
    (fuse ext avail cfg lidarDepth lidarShape aiDepth aiShape lidarConfidence aiConfidence).2
      = cfg ∧
    ((fuse ext avail cfg lidarDepth lidarShape aiDepth aiShape lidarConfidence
        aiConfidence).1 = none ∨
      ∃ r, (fuse ext avail cfg lidarDepth lidarShape aiDepth aiShape lidarConfidence
        aiConfidence).1 = some r) ∧
    (avail = false →
      (fuse ext avail cfg lidarDepth lidarShape aiDepth aiShape lidarConfidence
        aiConfidence).1 = none) := by
  cases avail
  · simp [fuse]
  · rw [fuse]
    cases hb : fuseBody ext cfg lidarDepth lidarShape aiDepth aiShape lidarConfidence
        aiConfidence with
    | error e => simp
    | ok r => simp

/-- Witness for C9 with trivial externals and an unavailable OpenCV
backend. -/
theorem C9_fuse_total_config_unchanged_witness :
    (fuse trivialExternals false defaultFusionConfig [] (0, 0) [] (0, 0) none 0).2
      = defaultFusionConfig ∧
    ((fuse trivialExternals false defaultFusionConfig [] (0, 0) [] (0, 0) none 0).1 = none ∨
      ∃ r, (fuse trivialExternals false defaultFusionConfig [] (0, 0) [] (0, 0) none 0).1
        = some r) ∧
    (false = false →
      (fuse trivialExternals false defaultFusionConfig [] (0, 0) [] (0, 0) none 0).1 = none) :=
  C9_fuse_total_config_unchanged trivialExternals false defaultFusionConfig [] (0, 0)
    [] (0, 0) none 0

/-- C10: when the confidence-maps flag is set but the trailing confidence
payload holds fewer than `width×height` bytes, `_parse_depth_frame`
succeeds and returns the depth frame with `confidence_values = None` —
silently, without any error — because the source checks
`len(conf_data) == conf_size` and keeps `None` on a short read. -/
theorem C10_short_confidence_silently_none
    (uuid ts tf intr wB hB depthB confTail : List ℕ)
    (h1 : uuid.length = 16) (h2 : ts.length = 8) (h3 : tf.length = 64)
    (h4 : intr.length = 36) (h5 : wB.length = 4) (h6 : hB.length = 4)
    (h7 : depthB.length = leNat wB * leNat hB * 4)
    (h8 : confTail.length < leNat wB * leNat hB) :
    parse_depth_frame true
        (uuid ++ (ts ++ (tf ++ (intr ++ (wB ++ (hB ++ (depthB ++ confTail))))))) =
      Except.ok
        (⟨uuid, leNat ts, toWords tf, toWords intr, leNat wB, leNat hB,
          toWords depthB, none⟩, []) := by
  have htf4 : tf.length % 4 = 0 := by omega
  have htfw : (toWords tf).length = 16 := by rw [toWords_length, h3]
  have hin4 : intr.length % 4 = 0 := by omega
  have hinw : (toWords intr).length = 9 := by rw [toWords_length, h4]
  have hd4 : depthB.length % 4 = 0 := by omega
  have hdw : (toWords depthB).length = leNat hB * leNat wB := by
    rw [toWords_length, h7]
    ring_nf
    omega
  have hct : confTail.length ≠ leNat wB * leNat hB := by omega
  simp only [parse_depth_frame, readBytes,
    List.take_left' h1, List.drop_left' h1,
    unpackU64_exact ts _ h2,
    List.take_left' h3, List.drop_left' h3,
    frombuffer32, htf4, reduceIte, reshapeExact, htfw,
    List.take_left' h4, List.drop_left' h4,
    hin4, hinw,
    unpackU32_exact wB _ h5, unpackU32_exact hB _ h6, except_bind_ok,
    List.take_left' h7, List.drop_left' h7, hd4, hdw,
    List.take_of_length_le (le_of_lt h8), List.drop_of_length_le (le_of_lt h8), hct]

/-- Witness for C10: a 2×2 depth frame followed by only 3 of the 4
expected confidence bytes parses to a frame without confidence values. -/
theorem C10_short_confidence_silently_none_witness :
    parse_depth_frame true
        (List.replicate 16 0 ++ (List.replicate 8 0 ++ (List.replicate 64 0 ++
          (List.replicate 36 0 ++ ([2, 0, 0, 0] ++ ([2, 0, 0, 0] ++
            (List.replicate 16 7 ++ [9, 9, 9]))))))) =
      Except.ok
        (⟨List.replicate 16 0, leNat (List.replicate 8 0), toWords (List.replicate 64 0),
          toWords (List.replicate 36 0), leNat [2, 0, 0, 0], leNat [2, 0, 0, 0],
          toWords (List.replicate 16 7), none⟩, []) :=
  C10_short_confidence_silently_none (List.replicate 16 0) (List.replicate 8 0)
    (List.replicate 64 0) (List.replicate 36 0) [2, 0, 0, 0] [2, 0, 0, 0]
    (List.replicate 16 7) [9, 9, 9] (by decide) (by decide) (by decide) (by decide)
    (by decide) (by decide) (by decide) (by decide)
